import Mathlib

/-
Verification of the wasmcp asynchronous execution core: the readiness-driven
executor (poll_loop.py) and the streaming HTTP client (core.py, stream.py),
in both their SDK form (sdk/python/wasi-http-async/src/wasi_http_async) and
their example form (examples/weather/python/wasi_http_async).
Python code is shallowly embedded: bytes are lists of naturals, host
primitives are explicit script or oracle parameters, and side effects on the
host are recorded as explicit events or counters.
-/

namespace WasmcpVerif

/- ===================================================================
   Two-level fetch result handling.
   Embeds sdk core.py, fetch, lines 147-166: the outer (transport) result
   is checked first; on outer ok the inner (protocol) result is checked;
   an inner error raises with the error code of the inner payload
   (defaulting to Unknown), an outer error raises with the stringified
   outer payload. A response handle is produced only on ok-ok.
   =================================================================== -/

/-- Inner (protocol, HTTP-level) result of the host transport: either an
incoming response handle (modelled as an opaque natural id) or an error
payload that may carry an errorCode field. -/
inductive HostInner
  | ok (resp : Nat)
  | err (errorCode : Option String)
  deriving DecidableEq, Repr

/-- Outer (transport-level) result of the host transport. -/
inductive HostOuter
  | ok (inner : HostInner)
  | err (msg : String)
  deriving DecidableEq, Repr

/-- The two exception shapes raised by fetch while unwrapping the host
result: requestFailed for a transport-level error, httpFailed for a
protocol-level error. -/
inductive FetchErr
  | requestFailed (msg : String)
  | httpFailed (ctx : String)
  deriving DecidableEq, Repr

/-- The message string attached to each exception by fetch
(sdk core.py lines 162 and 166). -/
def fetchErrMessage : FetchErr → String
  | .requestFailed m => String.append "Request failed: " m
  | .httpFailed c => String.append "HTTP request failed: " c

/-- Embedding of the response-unwrapping tail of fetch (sdk core.py lines
156-166): ok-ok yields the incoming response, ok-err raises httpFailed with
the errorCode (or Unknown), outer err raises requestFailed. -/
def handleFetchResult : HostOuter → Except FetchErr Nat
  | .ok (.ok r) => Except.ok r
  | .ok (.err c) => Except.error (FetchErr.httpFailed (c.getD "Unknown"))
  | .err m => Except.error (FetchErr.requestFailed m)

/- ===================================================================
   Request header construction.
   Embeds sdk core.py, fetch, lines 94-101 (identical in the example copy,
   lines 101-109): caller headers are appended to the Fields multimap in
   order; then, when a json argument is present, a content-type entry is
   appended unconditionally.
   =================================================================== -/

/-- Embedding of the header-building part of fetch: the Fields multimap is
a list of (name, value) entries in append order; caller headers first, then
the json content-type entry whenever the json argument is not none (no
check of the caller headers is made before appending). -/
def buildRequestHeaders (headers : List (String × String)) (json : Option String) :
    List (String × String) :=
  match json with
  | some _ => headers ++ [("content-type", "application/json")]
  | none => headers

/- ===================================================================
   Method dispatch of the example client fetch
   (examples/weather/python/wasi_http_async/core.py, lines 124-137):
   exact, case-sensitive comparison against six method strings, with a
   fallthrough to Method_Get.
   =================================================================== -/

/-- The wasi http method variants reachable from the example fetch. -/
inductive HttpMethod
  | get | post | put | delete | head | patch
  deriving DecidableEq, Repr

/-- Embedding of the method-selection chain of the example fetch: exact
string comparison, defaulting to get on any other string. -/
def exampleSetMethod (method : String) : HttpMethod :=
  if method = "GET" then HttpMethod.get
  else if method = "POST" then HttpMethod.post
  else if method = "PUT" then HttpMethod.put
  else if method = "DELETE" then HttpMethod.delete
  else if method = "HEAD" then HttpMethod.head
  else if method = "PATCH" then HttpMethod.patch
  else HttpMethod.get

/- ===================================================================
   Completion futures.
   Modelled from the spec: create_future (sdk poll_loop.py lines 52-53 and
   example poll_loop.py lines 76-77) returns a CPython asyncio Future,
   whose implementation lives in the Python standard library, outside this
   repository. Its documented contract, and the contract the spec requires
   (P1), is a state cell that is pending until resolved; set_result on a
   future that is not pending raises InvalidStateError and leaves the
   stored result unchanged.
   =================================================================== -/

/-- State of an asyncio future: pending, finished with a value, or
cancelled. -/
inductive FutState (α : Type)
  | pending
  | finished (v : α)
  | cancelled
  deriving DecidableEq, Repr

/-- An asyncio future as returned by create_future. -/
structure AsyncFuture (α : Type) where
  state : FutState α
  deriving DecidableEq, Repr

/-- Embedding of PollLoop.create_future: a fresh pending future. -/
def createFuture (α : Type) : AsyncFuture α := ⟨FutState.pending⟩

/-- Modelled from the spec: set_result of a CPython asyncio Future (library
code outside src/) succeeds exactly when the future is pending; otherwise
it raises InvalidStateError and the future is not changed. -/
def setResult {α : Type} (f : AsyncFuture α) (v : α) : Except String (AsyncFuture α) :=
  match f.state with
  | FutState.pending => Except.ok ⟨FutState.finished v⟩
  | _ => Except.error "InvalidStateError"

/-- The stored result of a future, if finished. -/
def futResult {α : Type} (f : AsyncFuture α) : Option α :=
  match f.state with
  | FutState.finished v => some v
  | _ => none

/- ===================================================================
   FetchResponse body caching.
   Embeds FetchResponse._get_body (sdk core.py lines 54-62, identical in
   the example copy lines 62-70): a consumed flag and a cached body; the
   flag is set before the drain; on a cache hit the cached body (or empty
   bytes) is returned with no stream read.
   =================================================================== -/

/-- The mutable body state of a FetchResponse: the consumed flag and the
memoized body bytes. -/
structure RespBodyState where
  bodyConsumed : Bool
  cachedBody : Option (List Nat)
  deriving DecidableEq, Repr

/-- The body state of a freshly constructed FetchResponse. -/
def initRespBody : RespBodyState := ⟨false, none⟩

/-- Embedding of FetchResponse._get_body. The single read_all drain of the
body stream is supplied by the host as an Except outcome; the third
component counts how many times the drain (stream read_all) was invoked by
this call. On a consumed state the cached body or empty bytes is returned
with zero drains; otherwise the consumed flag is set first, then the drain
runs: on success the result is cached and returned, on failure the
exception propagates with the cache left as it was. -/
def getBody (st : RespBodyState) (drain : Except String (List Nat)) :
    Except String (List Nat) × RespBodyState × Nat :=
  if st.bodyConsumed then
    (Except.ok (st.cachedBody.getD []), st, 0)
  else
    match drain with
    | Except.ok bs => (Except.ok bs, ⟨true, some bs⟩, 1)
    | Except.error e => (Except.error e, ⟨true, st.cachedBody⟩, 1)

/-- Decode model used by FetchResponse.text: a fixed total function from
body bytes to a string (utf-8 decoding in the source); only its
determinism matters to the claims. -/
def utf8DecodeModel (bs : List Nat) : String :=
  String.mk (bs.map (fun b => Char.ofNat b))

/- ===================================================================
   Body streams.
   The host input stream is modelled as a script: the list of outcomes its
   read primitive will produce on successive calls. A chunk outcome is the
   returned byte list (possibly empty), closedErr is the stream-closed
   error the host raises at end of data, otherErr any other error. A
   closed host stream keeps raising closedErr on every further read, so a
   read call against it consumes a closedErr script entry.
   =================================================================== -/

/-- One outcome of the host read primitive. -/
inductive HostRead
  | chunk (bs : List Nat)
  | closedErr
  | otherErr (msg : String)
  deriving DecidableEq, Repr

/-- Counts of host primitive invocations made by one stream-method call. -/
structure HostStats where
  reads : Nat
  subscribes : Nat
  deriving DecidableEq, Repr

/-- Outcome of one call to the sdk Stream.read: returned bytes, the empty
result produced from the closed signal, or a re-raised error. -/
inductive ReadOutcome
  | bytes (bs : List Nat)
  | eofEmpty
  | raised (msg : String)
  deriving DecidableEq, Repr

/-- Embedding of the sdk Stream.read loop (sdk stream.py lines 18-36).
The Stream object of the sdk holds only the host stream handle and no
closed flag, so every call runs the same loop against the host script:
read from the host; nonempty data is returned; empty data causes a
subscribe and an await, then a retry; a closed error returns empty bytes;
any other error is re-raised. The result is none when the script is
exhausted before the loop returns (not reached on the scripts used
below). -/
def sdkStreamRead : List HostRead → Option ReadOutcome × HostStats
  | [] => (none, ⟨0, 0⟩)
  | r :: rest =>
    match r with
    | HostRead.chunk bs =>
      if bs.isEmpty then
        let (o, s) := sdkStreamRead rest
        (o, ⟨s.reads + 1, s.subscribes + 1⟩)
      else (some (ReadOutcome.bytes bs), ⟨1, 0⟩)
    | HostRead.closedErr => (some ReadOutcome.eofEmpty, ⟨1, 0⟩)
    | HostRead.otherErr m => (some (ReadOutcome.raised m), ⟨1, 0⟩)

/-- State of the example Stream (examples stream.py lines 23-28): whether
self.stream and self.body are still set (non-None). -/
structure ExStreamState where
  streamOpen : Bool
  bodyOpen : Bool
  deriving DecidableEq, Repr

/-- Outcome of one call to the example Stream.next: a data chunk, eof
(returned None), or a re-raised error. -/
inductive NextOutcome
  | chunk (bs : List Nat)
  | eof
  | raised (msg : String)
  deriving DecidableEq, Repr

/-- Embedding of the example Stream.next loop (examples stream.py lines
30-77). When self.stream is None the call returns None at once with no
host invocation. Otherwise the loop reads from the host: an empty buffer
causes a subscribe and an await then a retry; a nonempty buffer is
returned; the closed error closes the stream and finishes the body,
setting both to None, and returns None; other errors are re-raised. The
state never changes while looping on empty chunks, so it is a fixed
parameter of the recursion. -/
def exStreamNext (st : ExStreamState) : List HostRead → Option NextOutcome × ExStreamState × HostStats
  | [] =>
    if st.streamOpen = false then (some NextOutcome.eof, st, ⟨0, 0⟩)
    else (none, st, ⟨0, 0⟩)
  | r :: rest =>
    if st.streamOpen = false then (some NextOutcome.eof, st, ⟨0, 0⟩)
    else
      match r with
      | HostRead.chunk bs =>
        if bs.isEmpty then
          let (o, st2, s) := exStreamNext st rest
          (o, st2, ⟨s.reads + 1, s.subscribes + 1⟩)
        else (some (NextOutcome.chunk bs), st, ⟨1, 0⟩)
      | HostRead.closedErr => (some NextOutcome.eof, ⟨false, false⟩, ⟨1, 0⟩)
      | HostRead.otherErr m => (some (NextOutcome.raised m), st, ⟨1, 0⟩)

/- ===================================================================
   The sdk executor (sdk poll_loop.py, PollLoop).
   Futures and pollables are identified by natural-number ids; the wait
   table _futures is the insertion-ordered list of (future id, pollable
   id) pairs; done futures are collected in a list. The host poll
   primitive is an oracle from the polled list to the ready indices.
   Host-visible actions of one loop iteration are recorded as events:
   pollCall (one batch poll invocation, with the polled list), resolve
   (set_result on a waiting future), close (an explicit close of a
   pollable; the sdk loop never performs one).
   =================================================================== -/

/-- Host-visible executor events. -/
inductive Ev
  | pollCall (ps : List Nat)
  | resolve (fid : Nat)
  | close (p : Nat)
  deriving DecidableEq, Repr

/-- Whether an event is a batch poll invocation. -/
def isPollCall : Ev → Bool
  | Ev.pollCall _ => true
  | _ => false

/-- Whether an event is an explicit pollable close. -/
def isCloseEv : Ev → Bool
  | Ev.close _ => true
  | _ => false

/-- Number of batch poll invocations in a trace. -/
def countPolls (evs : List Ev) : Nat := evs.countP isPollCall

/-- Number of explicit pollable closes in a trace. -/
def countCloses (evs : List Ev) : Nat := evs.countP isCloseEv

/-- Callbacks a ready handle can run, restricted to what the verified
claims exercise: noop stands for an opaque resumed task step, finishTop
completes the top-level awaited future (a task finishing), stopLoop is the
done-callback installed by run_until_complete. -/
inductive CB
  | noop
  | finishTop
  | stopLoop
  deriving DecidableEq, Repr

/-- A scheduled handle: its callback and its cancelled flag. -/
structure Handle where
  cb : CB
  handleCancelled : Bool
  deriving DecidableEq, Repr

/-- State of the sdk PollLoop: the ready queue, the timer-scheduled queue
(sorted by due time), the timer, the wait table _futures, the set of done
future ids, the stopping flag and the id of the top-level future awaited
by run_until_complete. -/
structure SdkLoopState where
  ready : List Handle
  scheduled : List (Nat × Handle)
  timer : Nat
  futures : List (Nat × Nat)
  doneFuts : List Nat
  stopping : Bool
  topFut : Nat
  deriving DecidableEq, Repr

/-- Running one callback. Completing a future (finishTop, or set_result in
the poll phase) marks it done and schedules its done callbacks via
call_soon: for the top-level future that is the stopLoop lambda installed
by run_until_complete, for a register future an opaque task-resume step. -/
def runCB (c : CB) (st : SdkLoopState) : SdkLoopState :=
  match c with
  | CB.noop => st
  | CB.stopLoop => { st with stopping := true }
  | CB.finishTop =>
    if st.doneFuts.contains st.topFut then st
    else { st with doneFuts := st.topFut :: st.doneFuts,
                   ready := st.ready ++ [⟨CB.stopLoop, false⟩] }

/-- The ready-drain loop of _run_once (sdk poll_loop.py lines 96-103): pop
from the front of the ready queue, run unless cancelled, for the number of
handles present when the drain started (callbacks appended during the
drain stay for the next iteration). -/
def drainN : Nat → SdkLoopState → SdkLoopState
  | 0, st => st
  | n + 1, st =>
    match st.ready with
    | [] => st
    | h :: rest =>
      let st1 := { st with ready := rest }
      drainN n (if h.handleCancelled then st1 else runCB h.cb st1)

/-- The timer transfer at the head of _run_once (lines 92-94): move every
due scheduled handle (due time at most the timer) from the front of the
sorted scheduled queue to the ready queue. -/
def moveDue (timer : Nat) : List (Nat × Handle) → List Handle × List (Nat × Handle)
  | [] => ([], [])
  | (w, h) :: rest =>
    if w ≤ timer then
      let (hs, sch) := moveDue timer rest
      (h :: hs, sch)
    else ([], (w, h) :: rest)

/-- The callback phase of _run_once: transfer due timers, then drain the
ready queue for its starting length. -/
def drainPhase (st : SdkLoopState) : SdkLoopState :=
  let (due, sched2) := moveDue st.timer st.scheduled
  let st0 := { st with scheduled := sched2, ready := st.ready ++ due }
  drainN st0.ready.length st0

/-- One step of the ready-index loop in the poll phase (lines 117-120):
look up the future paired with the returned index in the pending list and
set its result unless it is already done; set_result schedules the done
callbacks of that future (stopLoop for the top-level future, an opaque
resume step otherwise) and is recorded as a resolve event. -/
def resolveStep (pending : List (Nat × Nat)) (acc : SdkLoopState × List Ev) (index : Nat) :
    SdkLoopState × List Ev :=
  match pending.get? index with
  | some (fid, _) =>
    if acc.1.doneFuts.contains fid then acc
    else
      ({ acc.1 with
          doneFuts := fid :: acc.1.doneFuts,
          ready := acc.1.ready ++
            [⟨if fid = acc.1.topFut then CB.stopLoop else CB.noop, false⟩] },
        acc.2 ++ [Ev.resolve fid])
  | none => acc

/-- The poll phase of _run_once (sdk poll_loop.py lines 105-121): when the
wait table is nonempty, gather the pollables of every not-done future into
one list, in table order; when that list is nonempty invoke the host batch
poll once and run the ready-index loop over its answer. -/
def pollPhase (host : List Nat → List Nat) (st : SdkLoopState) : SdkLoopState × List Ev :=
  if st.futures.isEmpty then (st, [])
  else
    let pending := st.futures.filter (fun e => !st.doneFuts.contains e.1)
    let pollables := pending.map (fun e => e.2)
    if pollables.isEmpty then (st, [])
    else
      let readyList := host pollables
      let r := readyList.foldl (resolveStep pending) (st, [])
      (r.1, Ev.pollCall pollables :: r.2)

/-- One full _run_once iteration (sdk poll_loop.py lines 90-122): callback
phase, then poll phase, then the timer step. -/
def runOnce (host : List Nat → List Nat) (st : SdkLoopState) : SdkLoopState × List Ev :=
  let st1 := drainPhase st
  let r := pollPhase host st1
  ({ r.1 with timer := r.1.timer + 1 }, r.2)

/-- Whether the top-level future of run_until_complete is done. -/
def topDone (st : SdkLoopState) : Bool := st.doneFuts.contains st.topFut

/-- The run_until_complete driver loop (sdk poll_loop.py lines 137-140):
while not stopping, run one iteration and break as soon as the top-level
future is done. Fuel bounds the number of iterations; the returned trace
concatenates the iteration traces. -/
def runLoop (host : List Nat → List Nat) : Nat → SdkLoopState → SdkLoopState × List Ev
  | 0, st => (st, [])
  | fuel + 1, st =>
    if st.stopping then (st, [])
    else
      let r := runOnce host st
      if topDone r.1 then r
      else
        let r2 := runLoop host fuel r.1
        (r2.1, r.2 ++ r2.2)

/- ===================================================================
   The example executor (examples poll_loop.py, PollLoop.run_until_complete
   lines 28-53). Its wait table self.wakers is a list of (pollable id,
   waker future id) pairs. Each iteration that has wakers polls all their
   pollables once; each pollable reported ready is closed with exit and
   its waker resolved, in table order; the others are kept.
   =================================================================== -/

/-- State of the example PollLoop relevant to waker processing. -/
structure ExLoopState where
  wakers : List (Nat × Nat)
  doneFuts : List Nat
  deriving DecidableEq, Repr

/-- The per-entry loop over zip(zip(ready, pollables), wakers) (examples
poll_loop.py lines 42-47), processed in table order: a ready entry emits
close of its pollable then resolve of its waker and is dropped; a
not-ready entry is appended to new_wakers. Returns the kept entries and
the emitted events. -/
def processWakers : List (Bool × (Nat × Nat)) → List (Nat × Nat) × List Ev
  | [] => ([], [])
  | (flag, (p, w)) :: rest =>
    let (kept, evs) := processWakers rest
    if flag then (kept, Ev.close p :: Ev.resolve w :: evs)
    else ((p, w) :: kept, evs)

/-- The ready flags computed from the host answer (lines 38-40): a boolean
per waker entry, true when the host returned its index. -/
def exReadyFlags (host : List Nat → List Nat) (st : ExLoopState) : List Bool :=
  (List.range st.wakers.length).map (fun i => (host (st.wakers.map (fun e => e.1))).contains i)

/-- The waker-processing phase of one example-loop iteration (examples
poll_loop.py lines 35-49): nothing happens without wakers; otherwise the
pollables of all wakers are gathered in table order, the host batch poll
is invoked once, every ready entry is closed then resolved (and its waker
marked done), and the kept entries replace the table. -/
def exWakerPhase (host : List Nat → List Nat) (st : ExLoopState) : ExLoopState × List Ev :=
  if st.wakers.isEmpty then (st, [])
  else
    let pollables := st.wakers.map (fun e => e.1)
    let flags := exReadyFlags host st
    let r := processWakers (flags.zip st.wakers)
    let fired := (flags.zip st.wakers).filterMap
      (fun fe => if fe.1 then some fe.2.2 else none)
    ({ wakers := r.1, doneFuts := fired ++ st.doneFuts },
      Ev.pollCall pollables :: r.2)

/- ===================================================================
   Theorems.
   =================================================================== -/

/-- Helper: the two exception messages of fetch are never equal, since one
starts with the character R and the other with H. -/
lemma fetchErrMessage_distinguishable (m c : String) :
    fetchErrMessage (FetchErr.requestFailed m) ≠ fetchErrMessage (FetchErr.httpFailed c) := by
  intro h
  obtain ⟨md⟩ := m
  obtain ⟨cd⟩ := c
  have h2 : 'R' :: ("equest failed: ".data ++ md) = 'H' :: ("TTP request failed: ".data ++ cd) :=
    congrArg String.data h
  injection h2 with hh _
  exact absurd hh (by decide)

/-- Claim C1: fetch unwraps the host result at both levels: an outer
(transport) error raises the requestFailed exception and no response is
produced; an outer ok with an inner (protocol) error raises the httpFailed
exception; the two exception messages are always distinguishable; and a
response is produced only from an ok-ok result, so no error at either
level is coerced into a response. -/
theorem c1_fetch_two_level_unwrap (o : HostOuter) :
    (∀ m, o = HostOuter.err m →
        handleFetchResult o = Except.error (FetchErr.requestFailed m)) ∧
    (∀ c, o = HostOuter.ok (HostInner.err c) →
        handleFetchResult o = Except.error (FetchErr.httpFailed (c.getD "Unknown"))) ∧
    (∀ r, handleFetchResult o = Except.ok r → o = HostOuter.ok (HostInner.ok r)) ∧
    (∀ m c, fetchErrMessage (FetchErr.requestFailed m)
        ≠ fetchErrMessage (FetchErr.httpFailed c)) := by
  refine ⟨?_, ?_, ?_, fun m c => fetchErrMessage_distinguishable m c⟩
  · rintro m rfl; rfl
  · rintro c rfl; rfl
  · intro r h
    cases o with
    | err m => simp [handleFetchResult] at h
    | ok inner =>
      cases inner with
      | ok r2 =>
        simp [handleFetchResult] at h
        rw [h]
      | err c => simp [handleFetchResult] at h

/-- Witness for C1 at both error levels and at a success. -/
theorem c1_witness :
    handleFetchResult (HostOuter.err "dns failure")
      = Except.error (FetchErr.requestFailed "dns failure") ∧
    handleFetchResult (HostOuter.ok (HostInner.err (some "timeout")))
      = Except.error (FetchErr.httpFailed "timeout") ∧
    (HostOuter.ok (HostInner.ok 7) = HostOuter.ok (HostInner.ok 7)) := by
  refine ⟨(c1_fetch_two_level_unwrap (HostOuter.err "dns failure")).1 "dns failure" rfl,
    ?_, (c1_fetch_two_level_unwrap (HostOuter.ok (HostInner.ok 7))).2.2.1 7 rfl⟩
  exact (c1_fetch_two_level_unwrap
    (HostOuter.ok (HostInner.err (some "timeout")))).2.1 (some "timeout") rfl

/-- Counterexample for C2: with a caller-supplied content-type header and a
json argument, fetch still appends the application/json content-type entry,
so the request carries two content-type entries; the claim says the
caller entry stays the sole one. -/
theorem c2_counterexample :
    ("content-type", "application/json") ∈
      buildRequestHeaders [("content-type", "text/plain")] (some "1") ∧
    (buildRequestHeaders [("content-type", "text/plain")] (some "1")).countP
      (fun e => e.1 == "content-type") = 2 := by
  constructor
  · simp [buildRequestHeaders]
  · rfl

/-- Claim C2 as amended: for every call to fetch with a non-None json
argument, the content-type application/json entry is appended to the
request headers unconditionally, after the caller headers; when the caller
supplied a content-type header of their own, both that entry and the
appended application/json entry are present in the request. -/
theorem c2_amended_always_appends (headers : List (String × String)) (j v : String)
    (h : ("content-type", v) ∈ headers) :
    buildRequestHeaders headers (some j)
      = headers ++ [("content-type", "application/json")] ∧
    ("content-type", v) ∈ buildRequestHeaders headers (some j) ∧
    ("content-type", "application/json") ∈ buildRequestHeaders headers (some j) := by
  refine ⟨rfl, ?_, ?_⟩
  · simp [buildRequestHeaders]
    exact Or.inl h
  · simp [buildRequestHeaders]

/-- Witness for the amended C2. -/
theorem c2_amended_witness :
    ("content-type", "text/plain")
        ∈ ([("content-type", "text/plain")] : List (String × String)) ∧
    (buildRequestHeaders [("content-type", "text/plain")] (some "2")
      = [("content-type", "text/plain")] ++ [("content-type", "application/json")] ∧
    ("content-type", "text/plain")
        ∈ buildRequestHeaders [("content-type", "text/plain")] (some "2") ∧
    ("content-type", "application/json")
        ∈ buildRequestHeaders [("content-type", "text/plain")] (some "2")) :=
  ⟨List.mem_singleton.mpr rfl,
   c2_amended_always_appends [("content-type", "text/plain")] "2" "text/plain"
     (List.mem_singleton.mpr rfl)⟩

/-- Claim C7: a future from create_future can be resolved once; a second
set_result raises InvalidStateError and the first stored result is
unchanged. -/
theorem c7_single_resolution {α : Type} (v w : α) (f1 : AsyncFuture α)
    (h : setResult (createFuture α) v = Except.ok f1) :
    setResult f1 w = Except.error "InvalidStateError" ∧ futResult f1 = some v := by
  simp only [setResult, createFuture, Except.ok.injEq] at h
  subst h
  exact ⟨rfl, rfl⟩

/-- Witness for C7. -/
theorem c7_witness :
    setResult (createFuture Nat) 1 = Except.ok ⟨FutState.finished 1⟩ ∧
    setResult (⟨FutState.finished 1⟩ : AsyncFuture Nat) 2
      = Except.error "InvalidStateError" ∧
    futResult (⟨FutState.finished 1⟩ : AsyncFuture Nat) = some 1 :=
  ⟨rfl, (c7_single_resolution 1 2 ⟨FutState.finished 1⟩ rfl).1,
    (c7_single_resolution 1 2 ⟨FutState.finished 1⟩ rfl).2⟩

/-- Claim C8: when the first body access drains the stream successfully, a
second access returns the identical bytes (hence the identical decoded
text) from the cache, performing zero further drains; across both calls
the stream is drained exactly once. -/
theorem c8_text_cache_coherence (bs : List Nat) (d2 : Except String (List Nat)) :
    (getBody (getBody initRespBody (Except.ok bs)).2.1 d2).1
      = (getBody initRespBody (Except.ok bs)).1 ∧
    (getBody (getBody initRespBody (Except.ok bs)).2.1 d2).2.2 = 0 ∧
    (getBody initRespBody (Except.ok bs)).2.2
      + (getBody (getBody initRespBody (Except.ok bs)).2.1 d2).2.2 = 1 ∧
    (getBody (getBody initRespBody (Except.ok bs)).2.1 d2).1.map utf8DecodeModel
      = (getBody initRespBody (Except.ok bs)).1.map utf8DecodeModel := by
  simp [getBody, initRespBody]

/-- Claim C10: when the first body access fails while draining, the
exception propagates, but the response was already marked consumed, so a
second access returns empty bytes (decoding to the empty string) from the
cache branch, with no further drain and no error. -/
theorem c10_error_marks_consumed (e : String) (d2 : Except String (List Nat)) :
    (getBody initRespBody (Except.error e)).1 = Except.error e ∧
    (getBody initRespBody (Except.error e)).2.1.bodyConsumed = true ∧
    (getBody (getBody initRespBody (Except.error e)).2.1 d2).1 = Except.ok [] ∧
    (getBody (getBody initRespBody (Except.error e)).2.1 d2).2.2 = 0 ∧
    utf8DecodeModel [] = "" := by
  refine ⟨rfl, rfl, ?_, ?_, rfl⟩ <;> simp [getBody, initRespBody]

/-- Claim C9: the example client fetch maps every method string outside
the exact, case-sensitive six-element set to Method_Get. -/
theorem c9_unknown_method_defaults_to_get (m : String)
    (h : m ∉ (["GET", "POST", "PUT", "DELETE", "HEAD", "PATCH"] : List String)) :
    exampleSetMethod m = HttpMethod.get := by
  simp only [List.mem_cons, List.mem_singleton, not_or] at h
  obtain ⟨h1, h2, h3, h4, h5, h6, _⟩ := h
  simp [exampleSetMethod, h1, h2, h3, h4, h5, h6]

/-- Witness for C9 at OPTIONS and at lowercase post. -/
theorem c9_witness :
    ("OPTIONS" ∉ (["GET", "POST", "PUT", "DELETE", "HEAD", "PATCH"] : List String)) ∧
    exampleSetMethod "OPTIONS" = HttpMethod.get ∧
    ("post" ∉ (["GET", "POST", "PUT", "DELETE", "HEAD", "PATCH"] : List String)) ∧
    exampleSetMethod "post" = HttpMethod.get :=
  ⟨by decide, c9_unknown_method_defaults_to_get "OPTIONS" (by decide),
   by decide, c9_unknown_method_defaults_to_get "post" (by decide)⟩

/-- Counterexample for C3: the sdk Stream keeps no closed flag, so a read
issued after the host has signalled closed still performs one host read
invocation (on which the host reports closed again); the claim requires
zero further host invocations. -/
theorem c3_counterexample :
    sdkStreamRead [HostRead.closedErr] = (some ReadOutcome.eofEmpty, ⟨1, 0⟩) ∧
    (HostStats.mk 1 0).reads ≠ 0 := by
  exact ⟨rfl, by decide⟩

/-- Claim C3 as amended: after the host signals end-of-data every further
read returns an empty result; in the example Stream (which sets its stream
handle to None on the closed signal) a further next call performs no host
read or subscribe invocation, while in the sdk Stream (which keeps no
closed state) a further read call still invokes the host read primitive
once, mapping the re-raised closed error to the empty result. -/
theorem c3_amended_closed_behaviour :
    (∀ (st : ExStreamState) (script : List HostRead), st.streamOpen = false →
        exStreamNext st script = (some NextOutcome.eof, st, ⟨0, 0⟩)) ∧
    (∀ (st : ExStreamState) (rest : List HostRead), st.streamOpen = true →
        exStreamNext st (HostRead.closedErr :: rest)
          = (some NextOutcome.eof, ⟨false, false⟩, ⟨1, 0⟩)) ∧
    sdkStreamRead [HostRead.closedErr] = (some ReadOutcome.eofEmpty, ⟨1, 0⟩) := by
  refine ⟨?_, ?_, rfl⟩
  · intro st script h
    cases script <;> simp [exStreamNext, h]
  · intro st rest h
    simp [exStreamNext, h]

/-- Witness for the amended C3: a closed example stream answers eof with
no host call; the closed signal itself closes the stream state. -/
theorem c3_amended_witness :
    (ExStreamState.mk false false).streamOpen = false ∧
    exStreamNext ⟨false, false⟩ [HostRead.closedErr]
      = (some NextOutcome.eof, ⟨false, false⟩, ⟨0, 0⟩) ∧
    (ExStreamState.mk true true).streamOpen = true ∧
    exStreamNext ⟨true, true⟩ [HostRead.closedErr]
      = (some NextOutcome.eof, ⟨false, false⟩, ⟨1, 0⟩) :=
  ⟨rfl, c3_amended_closed_behaviour.1 ⟨false, false⟩ [HostRead.closedErr] rfl,
   rfl, c3_amended_closed_behaviour.2.1 ⟨true, true⟩ [] rfl⟩

/-- Helper: one resolveStep adds no pollCall and no close event. -/
lemma resolveStep_counts (pending : List (Nat × Nat)) (acc : SdkLoopState × List Ev) (i : Nat) :
    countPolls (resolveStep pending acc i).2 = countPolls acc.2 ∧
    countCloses (resolveStep pending acc i).2 = countCloses acc.2 := by
  unfold resolveStep
  cases h : pending.get? i with
  | none => exact ⟨rfl, rfl⟩
  | some e =>
    obtain ⟨fid, p⟩ := e
    by_cases hd : fid ∈ acc.1.doneFuts
    · simp [hd]
    · simp [hd, countPolls, countCloses, List.countP_append, isPollCall, isCloseEv]

/-- Helper: the ready-index fold adds no pollCall and no close event. -/
lemma foldl_resolveStep_counts (pending : List (Nat × Nat)) (l : List Nat)
    (acc : SdkLoopState × List Ev) :
    countPolls (l.foldl (resolveStep pending) acc).2 = countPolls acc.2 ∧
    countCloses (l.foldl (resolveStep pending) acc).2 = countCloses acc.2 := by
  induction l generalizing acc with
  | nil => exact ⟨rfl, rfl⟩
  | cons i rest ih =>
    simp only [List.foldl_cons]
    have h1 := resolveStep_counts pending acc i
    have h2 := ih (resolveStep pending acc i)
    exact ⟨h2.1.trans h1.1, h2.2.trans h1.2⟩

/-- Helper: a trace headed by one pollCall and continued by the
ready-index fold contains exactly one poll invocation and no close. -/
lemma countPolls_cons_resolves (ps : List Nat) (pending : List (Nat × Nat)) (l : List Nat)
    (st : SdkLoopState) :
    countPolls (Ev.pollCall ps :: (l.foldl (resolveStep pending) (st, [])).2) = 1 ∧
    countCloses (Ev.pollCall ps :: (l.foldl (resolveStep pending) (st, [])).2) = 0 := by
  have h1 : countPolls (l.foldl (resolveStep pending) (st, [])).2 = 0 :=
    (foldl_resolveStep_counts pending l (st, [])).1
  have h2 : countCloses (l.foldl (resolveStep pending) (st, [])).2 = 0 :=
    (foldl_resolveStep_counts pending l (st, [])).2
  simp only [countPolls, countCloses] at h1 h2
  constructor <;>
    simp [countPolls, countCloses, List.countP_cons, isPollCall, isCloseEv, h1, h2]

/-- Helper: one poll phase makes at most one batch poll invocation and
never closes a pollable. -/
lemma pollPhase_counts (host : List Nat → List Nat) (st : SdkLoopState) :
    countPolls (pollPhase host st).2 ≤ 1 ∧ countCloses (pollPhase host st).2 = 0 := by
  unfold pollPhase
  split
  · simp [countPolls, countCloses]
  · dsimp only
    split
    · simp [countPolls, countCloses]
    · have h := countPolls_cons_resolves
        ((st.futures.filter (fun e => !st.doneFuts.contains e.1)).map (fun e => e.2))
        (st.futures.filter (fun e => !st.doneFuts.contains e.1))
        (host ((st.futures.filter (fun e => !st.doneFuts.contains e.1)).map (fun e => e.2)))
        st
      exact ⟨le_of_eq h.1, h.2⟩

/-- Helper: the trace of one sdk loop iteration is the trace of its poll
phase. -/
lemma runOnce_trace (host : List Nat → List Nat) (st : SdkLoopState) :
    (runOnce host st).2 = (pollPhase host (drainPhase st)).2 := rfl

/-- Claim C4: in every sdk loop iteration whose post-drain state has at
least one waiting task (a wait-table entry whose future is not done), the
pollables of all such entries are gathered, in table order, into one list
that heads a single pollCall event: the host batch poll is invoked exactly
once in that iteration. -/
theorem c4_poll_coalescing (host : List Nat → List Nat) (st : SdkLoopState)
    (h : ∃ e ∈ (drainPhase st).futures,
        (drainPhase st).doneFuts.contains e.1 = false) :
    countPolls (runOnce host st).2 = 1 ∧
    (runOnce host st).2.head? = some (Ev.pollCall
      (((drainPhase st).futures.filter
        (fun e => !(drainPhase st).doneFuts.contains e.1)).map (fun e => e.2))) := by
  obtain ⟨e, he, hc⟩ := h
  have hc2 : e.1 ∉ (drainPhase st).doneFuts := by simpa using hc
  have hmem : e ∈ (drainPhase st).futures.filter
      (fun x => !(drainPhase st).doneFuts.contains x.1) := by
    simp [List.mem_filter, he, hc2]
  rw [runOnce_trace]
  unfold pollPhase
  split
  · next hemp =>
    rw [List.isEmpty_iff] at hemp
    rw [hemp] at he
    simp at he
  · dsimp only
    split
    · next hemp2 =>
      rw [List.isEmpty_iff, List.map_eq_nil_iff] at hemp2
      rw [hemp2] at hmem
      simp at hmem
    · have h := countPolls_cons_resolves
        (((drainPhase st).futures.filter
          (fun x => !(drainPhase st).doneFuts.contains x.1)).map (fun x => x.2))
        ((drainPhase st).futures.filter (fun x => !(drainPhase st).doneFuts.contains x.1))
        (host (((drainPhase st).futures.filter
          (fun x => !(drainPhase st).doneFuts.contains x.1)).map (fun x => x.2)))
        (drainPhase st)
      exact ⟨h.1, rfl⟩

/-- Witness for C4: three tasks awaiting three distinct pollables produce
one batch poll invocation covering all three. -/
theorem c4_witness :
    (∃ e ∈ (drainPhase ⟨[], [], 0, [(1, 101), (2, 102), (3, 103)], [], false, 0⟩).futures,
        (drainPhase ⟨[], [], 0, [(1, 101), (2, 102), (3, 103)], [], false, 0⟩).doneFuts.contains
          e.1 = false) ∧
    countPolls (runOnce (fun _ => [1])
        ⟨[], [], 0, [(1, 101), (2, 102), (3, 103)], [], false, 0⟩).2 = 1 ∧
    (runOnce (fun _ => [1]) ⟨[], [], 0, [(1, 101), (2, 102), (3, 103)], [], false, 0⟩).2.head?
      = some (Ev.pollCall
        (((drainPhase ⟨[], [], 0, [(1, 101), (2, 102), (3, 103)], [], false, 0⟩).futures.filter
          (fun e => !(drainPhase
            ⟨[], [], 0, [(1, 101), (2, 102), (3, 103)], [], false, 0⟩).doneFuts.contains e.1)).map
          (fun e => e.2))) :=
  ⟨by decide,
   c4_poll_coalescing (fun _ => [1]) ⟨[], [], 0, [(1, 101), (2, 102), (3, 103)], [], false, 0⟩
     (by decide)⟩

/-- Counterexample for C5: in the sdk loop, a registered pollable that the
host reports ready has its future resolved (the waiter is resumed) while
the iteration emits no close of any pollable: the sdk executor never
invokes the close primitive, contradicting the claim that the pollable is
closed/released at resume. -/
theorem c5_counterexample :
    countCloses (runOnce (fun _ => [0]) ⟨[], [], 0, [(5, 105)], [], false, 1⟩).2 = 0 ∧
    Ev.resolve 5 ∈ (runOnce (fun _ => [0]) ⟨[], [], 0, [(5, 105)], [], false, 1⟩).2 := by
  constructor
  · rfl
  · decide

/-- Helper: the per-entry waker loop keeps exactly the not-ready entries
and emits, for each ready entry in table order, the close of its pollable
immediately followed by the resolve of its waker. -/
lemma processWakers_eq (l : List (Bool × (Nat × Nat))) :
    processWakers l
      = (l.filterMap (fun fe => if fe.1 then none else some fe.2),
         l.flatMap (fun fe => if fe.1 then [Ev.close fe.2.1, Ev.resolve fe.2.2] else [])) := by
  induction l with
  | nil => rfl
  | cons fe rest ih =>
    obtain ⟨flag, p, w⟩ := fe
    cases flag <;> simp [processWakers, ih]

/-- Claim C5 as amended: in the example executor, every pollable the host
reports ready is closed, and the close event immediately precedes the
resolve of its waker, while the fired entry is dropped from the wait
table (the kept table is exactly the not-ready entries); in the sdk
executor no close of a pollable is ever performed, the wait-table entry
alone being removed when the waiter resumes. -/
theorem c5_amended_close_on_fire :
    (∀ (host : List Nat → List Nat) (st : ExLoopState), st.wakers ≠ [] →
        (exWakerPhase host st).2
          = Ev.pollCall (st.wakers.map (fun e => e.1)) ::
            ((exReadyFlags host st).zip st.wakers).flatMap
              (fun fe => if fe.1 then [Ev.close fe.2.1, Ev.resolve fe.2.2] else []) ∧
        (exWakerPhase host st).1.wakers
          = ((exReadyFlags host st).zip st.wakers).filterMap
              (fun fe => if fe.1 then none else some fe.2)) ∧
    (∀ (host : List Nat → List Nat) (st : SdkLoopState),
        countCloses (runOnce host st).2 = 0) := by
  constructor
  · intro host st hne
    have hemp : st.wakers.isEmpty = false := by simp [List.isEmpty_iff, hne]
    unfold exWakerPhase
    rw [hemp]
    simp only [Bool.false_eq_true, if_false]
    rw [processWakers_eq]
    exact ⟨rfl, rfl⟩
  · intro host st
    rw [runOnce_trace]
    exact (pollPhase_counts host (drainPhase st)).2

/-- Witness for the amended C5: one waker whose pollable fires is closed
then resolved and leaves the table empty. -/
theorem c5_amended_witness :
    ((⟨[(7, 3)], []⟩ : ExLoopState).wakers ≠ []) ∧
    ((exWakerPhase (fun _ => [0]) ⟨[(7, 3)], []⟩).2
        = Ev.pollCall ((⟨[(7, 3)], []⟩ : ExLoopState).wakers.map (fun e => e.1)) ::
          ((exReadyFlags (fun _ => [0]) ⟨[(7, 3)], []⟩).zip
              (⟨[(7, 3)], []⟩ : ExLoopState).wakers).flatMap
            (fun fe => if fe.1 then [Ev.close fe.2.1, Ev.resolve fe.2.2] else []) ∧
      (exWakerPhase (fun _ => [0]) ⟨[(7, 3)], []⟩).1.wakers
        = ((exReadyFlags (fun _ => [0]) ⟨[(7, 3)], []⟩).zip
              (⟨[(7, 3)], []⟩ : ExLoopState).wakers).filterMap
            (fun fe => if fe.1 then none else some fe.2)) :=
  ⟨by decide, c5_amended_close_on_fire.1 (fun _ => [0]) ⟨[(7, 3)], []⟩ (by decide)⟩

/-- Counterexample for C6: an iteration whose callback drain completes the
top-level future, while another task still waits on a pollable, still
invokes the host batch poll once in its poll phase; the claim requires
that iteration to stop before polling. -/
theorem c6_counterexample :
    countPolls (runOnce (fun _ => [])
        ⟨[⟨CB.finishTop, false⟩], [], 0, [(2, 102)], [], false, 1⟩).2 = 1 ∧
    topDone (runOnce (fun _ => [])
        ⟨[⟨CB.finishTop, false⟩], [], 0, [(2, 102)], [], false, 1⟩).1 = true := by
  constructor
  · rfl
  · rfl

/-- Claim C6 as amended: once the top-level future is done the driver loop
runs no further iteration, so the only poll invocation that can follow the
completion is the single one in the tail of the iteration during which the
future became done; in particular the whole remaining run equals that one
iteration and contains at most one poll invocation. -/
theorem c6_amended_no_poll_after_done (host : List Nat → List Nat) (st : SdkLoopState)
    (fuel : Nat) (h1 : st.stopping = false) (h2 : topDone (runOnce host st).1 = true) :
    runLoop host (fuel + 1) st = runOnce host st ∧
    countPolls (runOnce host st).2 ≤ 1 := by
  constructor
  · simp [runLoop, h1, h2]
  · rw [runOnce_trace]
    exact (pollPhase_counts host (drainPhase st)).1

/-- Witness for the amended C6. -/
theorem c6_amended_witness :
    (SdkLoopState.mk [⟨CB.finishTop, false⟩] [] 0 [(3, 103)] [] false 1).stopping = false ∧
    topDone (runOnce (fun _ => [])
        ⟨[⟨CB.finishTop, false⟩], [], 0, [(3, 103)], [], false, 1⟩).1 = true ∧
    (runLoop (fun _ => []) 5 ⟨[⟨CB.finishTop, false⟩], [], 0, [(3, 103)], [], false, 1⟩
        = runOnce (fun _ => []) ⟨[⟨CB.finishTop, false⟩], [], 0, [(3, 103)], [], false, 1⟩ ∧
      countPolls (runOnce (fun _ => [])
        ⟨[⟨CB.finishTop, false⟩], [], 0, [(3, 103)], [], false, 1⟩).2 ≤ 1) :=
  ⟨rfl, by decide,
   c6_amended_no_poll_after_done (fun _ => [])
     ⟨[⟨CB.finishTop, false⟩], [], 0, [(3, 103)], [], false, 1⟩ 4 rfl (by decide)⟩

end WasmcpVerif
